import Mathlib

/-!
Verification of the DOS keyboard-layout and code-page engine
(src/src/dos/dos_keyboard_layout.cpp) against its specification.

The development shallowly embeds the C++ code: byte buffers become total
functions from Nat to Nat whose reads are masked to a byte (mod 256) or a
16-bit word (mod 65536) exactly where the C types force it; the mutable
keyboard_layout object becomes an explicit record threaded through the
operations; the BIOS key-buffer sink (BIOS_AddKeyToBuffer) becomes an
output list of 16-bit values; the file system, the resource blobs and the
UPX far-call decompressor are external collaborators and enter as explicit
parameters.
-/

set_option maxRecDepth 10000

namespace DosKbd

/-- Number of planes per scan code (static member layout_pages = 12). -/
def layout_pages : Nat := 12

/-- Modelled from the spec: MAX_SCAN_CODE is defined in a header (bios.h)
that is not part of the sources at hand; it is the largest scan code the
BIOS emits (0x58, the spec says approximately 0x60). Every bounds claim
below only uses that it is at most 0x7e. -/
def MAX_SCAN_CODE : Nat := 0x58

/-- Size of the current_layout array: (MAX_SCAN_CODE+1)*layout_pages. -/
def layout_table_size : Nat := (MAX_SCAN_CODE + 1) * layout_pages

/-- Size of the diacritics member array (uint8_t diacritics[2048]). -/
def diacritics_size : Nat := 2048

/-- Modelled from the spec: the error taxonomy of dos_keyboard_layout.h
(header not in the sources); NoError is 0, the others are distinct
nonzero codes. -/
def KEYB_NOERROR : Nat := 0

/-- Modelled from the spec: FileNotFound error code (nonzero). -/
def KEYB_FILENOTFOUND : Nat := 1

/-- Modelled from the spec: InvalidFile error code (nonzero). -/
def KEYB_INVALIDFILE : Nat := 2

/-- Modelled from the spec: LayoutNotFound error code (nonzero). -/
def KEYB_LAYOUTNOTFOUND : Nat := 3

/-- Modelled from the spec: InvalidCPFile error code (nonzero). -/
def KEYB_INVALIDCPFILE : Nat := 4

/-- One entry of current_layout_planes: the four 16-bit masks of an
additional plane. -/
structure PlanePred where
  required_flags : Nat
  forbidden_flags : Nat
  required_userflags : Nat
  forbidden_userflags : Nat
deriving Repr, DecidableEq

/-- The state of a keyboard_layout object. Arrays are total functions
(reads beyond the C array bounds return the modelled memory content);
the language-code list and the file name are handled by the callers as
explicit parameters where they matter. -/
structure KL where
  current_layout : Nat → Nat
  current_layout_planes : Nat → PlanePred
  additional_planes : Nat
  used_lock_modifiers : Nat
  diacritics : Nat → Nat
  diacritics_entries : Nat
  diacritics_character : Nat
  user_keys : Nat
  use_foreign_layout : Bool

/-- Pointwise update of a byte/word array modelled as a function. -/
def upd (f : Nat → Nat) (i v : Nat) : Nat → Nat :=
  fun j => if j = i then v else f j

/-- Little-endian 16-bit read host_readw over a byte buffer. -/
def readw16 (buf : Nat → Nat) (i : Nat) : Nat :=
  buf i % 256 + (buf (i + 1) % 256) * 256

/-- A uint16_t read of a current_layout cell. -/
def clread (s : KL) (i : Nat) : Nat := s.current_layout i % 65536

/-- The value (uint16_t)(key shifted left by 8) or-ed with a byte:
the combined scan/char word that BIOS_AddKeyToBuffer receives. -/
def emit16 (key b : Nat) : Nat := ((key % 256) <<< 8) ||| (b % 256)

/-- The plane-pred content written by reset(): required 0, forbidden
0xffff for both flag groups. -/
def resetPlane : PlanePred := ⟨0, 0xffff, 0, 0xffff⟩

/-- The member function reset(): clears the table, the plane masks,
used_lock_modifiers back to 0x0f, diacritics_entries, the pending
diacritic and the user keys. It does NOT touch additional_planes, the
diacritics array content or use_foreign_layout (faithful to the source). -/
def reset (s : KL) : KL :=
  { s with
    current_layout := fun _ => 0
    current_layout_planes := fun _ => resetPlane
    used_lock_modifiers := 0x0f
    diacritics_entries := 0
    diacritics_character := 0
    user_keys := 0 }

/-- The keyboard_layout constructor: fields zeroed (use_foreign_layout
false, additional_planes 0) then reset(); the diacritics array is left
uninitialized, modelled by an arbitrary garbage function g. -/
def initState (g : Nat → Nat) : KL :=
  reset
    { current_layout := fun _ => 0
      current_layout_planes := fun _ => resetPlane
      additional_planes := 0
      used_lock_modifiers := 0x0f
      diacritics := g
      diacritics_entries := 0
      diacritics_character := 0
      user_keys := 0
      use_foreign_layout := false }

/-- Start offset of diacritics sub-table number n: the uint16_t walk
diacritics_start += diacritics[diacritics_start+1]*2+2 performed n
times from 0. -/
def dia_sub_start (d : Nat → Nat) : Nat → Nat
  | 0 => 0
  | n + 1 =>
    let p := dia_sub_start d n
    (p + (d (p + 1) % 256) * 2 + 2) % 65536

/-- The pair search of map_key: scan the len pairs at start, return the
second byte of the first pair whose first byte equals c. -/
def dia_find (d : Nat → Nat) (start len c : Nat) : Option Nat :=
  ((List.range len).find? (fun i => d (start + i * 2) % 256 == c)).map
    (fun i => d (start + i * 2 + 1) % 256)

/-- The non-command emission at the end of map_key: the full 16-bit
layouted key when the S-flag keypair bit is set, else scan-high/char-low. -/
def plain_emit (key lk : Nat) (is_keypair : Bool) : Nat :=
  if is_keypair then lk % 65536 else emit16 key lk

/-- keyboard_layout::map_key. The switch-layout command (codes 120..139)
re-parses the current layout file; that external re-parse is the rp
parameter (its Nat argument is key_command-119, the specific layout).
Result: (value returned, 16-bit values enqueued to the BIOS key buffer in
order, state after the call). -/
def map_key (rp : Nat → KL → KL) (s : KL) (key lk : Nat)
    (is_command is_keypair : Bool) : Bool × List Nat × KL :=
  if is_command then
    let c := lk % 256
    if 200 ≤ c ∧ c < 235 then
      let dc := if s.diacritics_entries + 200 ≤ c then 0 else c
      (true, [], { s with diacritics_character := dc })
    else if 120 ≤ c ∧ c < 140 then
      (true, [], rp (c - 119) s)
    else if 180 ≤ c ∧ c < 188 then
      (true, [], { s with user_keys := s.user_keys &&& (65535 ^^^ (1 <<< (c - 180))) })
    else if 188 ≤ c ∧ c < 196 then
      (true, [], { s with user_keys := s.user_keys ||| (1 <<< (c - 188)) })
    else if c = 160 then (true, [], s)
    else (false, [], s)
  else
    if 0 < s.diacritics_character then
      if s.diacritics_entries + 200 ≤ s.diacritics_character then
        (true, [plain_emit key lk is_keypair], { s with diacritics_character := 0 })
      else
        let start := dia_sub_start s.diacritics (s.diacritics_character - 200)
        let len := s.diacritics (start + 1) % 256
        match dia_find s.diacritics (start + 2) len (lk % 256) with
        | some b =>
          (true, [emit16 key b], { s with diacritics_character := 0 })
        | none =>
          (true, [emit16 key (s.diacritics start % 256), plain_emit key lk is_keypair],
            { s with diacritics_character := 0 })
    else (true, [plain_emit key lk is_keypair], s)

/-- The additional-plane loop of layout_key. Fuel counts the remaining
planes (the loop bound additional_planes); cp is the current plane index.
Sum.inl is a return-true exit through map_key; Sum.inr is the fall-through
to the pending-diacritic step (loop exhausted or a matching plane with a
zero table entry, which breaks the loop). -/
def plane_scan (rp : Nat → KL → KL) (key cf : Nat) (isp : Bool) :
    Nat → Nat → KL → List Nat → ((Bool × List Nat × KL) ⊕ (KL × List Nat))
  | 0, _, s, acc => Sum.inr (s, acc)
  | n + 1, cp, s, acc =>
    let pl := s.current_layout_planes cp
    if (cf &&& pl.required_flags) = pl.required_flags ∧
        (s.user_keys &&& pl.required_userflags) = pl.required_userflags ∧
        (cf &&& pl.forbidden_flags) = 0 ∧
        (s.user_keys &&& pl.forbidden_userflags) = 0 then
      if clread s (key * layout_pages + 2 + cp) ≠ 0 then
        match map_key rp s key (clread s (key * layout_pages + 2 + cp))
            (decide (((clread s (key * layout_pages + layout_pages - 2)) >>> (cp + 2)) &&& 1 ≠ 0))
            isp with
        | (true, es, s1) => Sum.inl (true, acc ++ es, s1)
        | (false, es, s1) => plane_scan rp key cf isp n (cp + 1) s1 (acc ++ es)
      else Sum.inr (s, acc)
    else plane_scan rp key cf isp n (cp + 1) s acc

/-- Scan codes the pending-diacritic step ignores (the switch cases of
layout_key: ctrl, both shifts, alt, caps, num, scroll). -/
def modifier_scan_codes : List Nat := [0x1d, 0x2a, 0x36, 0x38, 0x3a, 0x45, 0x46]

/-- The pending-diacritic step at the end of layout_key (reached when no
plane dispatched the key). Faithful to the source: for a well-formed
pending diacritic it enqueues (key shifted 8) or-ed with the sub-table
lead byte, clears the pending state and FALLS THROUGH to return false;
only for an out-of-range pending value does it return true silently. -/
def diacritic_fallthrough (s : KL) (key : Nat) : Bool × List Nat × KL :=
  if 0 < s.diacritics_character then
    if key ∈ modifier_scan_codes then (false, [], s)
    else if s.diacritics_entries + 200 ≤ s.diacritics_character then
      (true, [], { s with diacritics_character := 0 })
    else
      let start := dia_sub_start s.diacritics (s.diacritics_character - 200)
      (false, [emit16 key (s.diacritics start % 256)], { s with diacritics_character := 0 })
  else (false, [], s)

/-- One guarded map_key dispatch inside layout_key: if map_key returns
true, layout_key returns (Sum.inl); otherwise control falls through with
the (unchanged, as map_key only returns false without effects) state and
the emitted values, modelled by Sum.inr. -/
def try_map_key (rp : Nat → KL → KL) (s : KL) (key lk : Nat) (ic isp : Bool) :
    ((Bool × List Nat × KL) ⊕ (KL × List Nat)) :=
  match map_key rp s key lk ic isp with
  | (true, es, s1) => Sum.inl (true, es, s1)
  | (false, es, s1) => Sum.inr (s1, es)

/-- The shift/normal fast path of layout_key (the outer lock-modifier
test, the shift-xor-caps selection and the plane-0/plane-1 dispatch);
kf is the per-key flag row value, isp the S-flag keypair bit. -/
def fast_path (rp : Nat → KL → KL) (s : KL) (key f1 f3 kf : Nat) (isp : Bool) :
    ((Bool × List Nat × KL) ⊕ (KL × List Nat)) :=
  if (f1 &&& s.used_lock_modifiers &&& 0x7c) = 0 ∧ (f3 &&& 2) = 0 then
    if (((f1 &&& 2) >>> 1) ||| (f1 &&& 1)) ^^^ (((kf &&& 0x40) &&& (f1 &&& 0x40)) >>> 6) ≠ 0 then
      if clread s (key * layout_pages + 1) ≠ 0 then
        try_map_key rp s key (clread s (key * layout_pages + 1))
          (decide ((clread s (key * layout_pages + layout_pages - 2) &&& 2) ≠ 0)) isp
      else Sum.inr (s, [])
    else
      if clread s (key * layout_pages) ≠ 0 then
        try_map_key rp s key (clread s (key * layout_pages))
          (decide ((clread s (key * layout_pages + layout_pages - 2) &&& 1) ≠ 0)) isp
      else Sum.inr (s, [])
  else Sum.inr (s, [])

/-- The current_flags word for the additional-plane scan. -/
def current_flags (f1 f2 f3 : Nat) : Nat :=
  let cf0 := (f1 &&& 0x7f) ||| (((f2 &&& 3) ||| (f3 &&& 0xc)) <<< 8)
  let cf1 := if f1 &&& 3 ≠ 0 then cf0 ||| 0x4000 else cf0
  if f3 &&& 2 ≠ 0 then cf1 ||| 0x1000 else cf1

/-- keyboard_layout::layout_key (the translate operation). Returns the
handled flag, the enqueued 16-bit values in order, and the state after. -/
def layout_key (rp : Nat → KL → KL) (s : KL) (key f1 f2 f3 : Nat) :
    Bool × List Nat × KL :=
  if MAX_SCAN_CODE < key then (false, [], s)
  else if s.use_foreign_layout = false then (false, [], s)
  else
    match fast_path rp s key f1 f3 (clread s (key * layout_pages + layout_pages - 1))
        (clread s (key * layout_pages + layout_pages - 1) &&& 0x80 == 0x80) with
    | Sum.inl r => r
    | Sum.inr (s1, acc) =>
      match plane_scan rp key (current_flags f1 f2 f3)
          (clread s (key * layout_pages + layout_pages - 1) &&& 0x80 == 0x80)
          s1.additional_planes 0 s1 acc with
      | Sum.inl r => r
      | Sum.inr (s2, acc2) =>
        let r := diacritic_fallthrough s2 key
        (r.1, acc2 ++ r.2.1, r.2.2)

/-! ### KL parser (keyboard_layout::read_keyboard_file) -/

/-- The diacritics-table scan loop of read_keyboard_file: starting at i=0,
while i < 2048 and the lead byte at base+i is nonzero, count an entry and
advance i by read_buf[base+i+1]*2+2. Returns (final i, entry count). The
fuel 2048 exceeds the maximal iteration count (each step advances i by at
least 2 with i < 2048). -/
def diaScanAux (buf : Nat → Nat) (base : Nat) : Nat → Nat → Nat → Nat × Nat
  | 0, i, e => (i, e)
  | f + 1, i, e =>
    if i < 2048 then
      if buf (base + i) % 256 = 0 then (i, e)
      else diaScanAux buf base f (i + (buf (base + i + 1) % 256) * 2 + 2) (e + 1)
    else (i, e)

/-- Final (i, diacritics_entries) of the diacritics scan loop. -/
def diaScan (buf : Nat → Nat) (base : Nat) : Nat × Nat := diaScanAux buf base 2048 0 0

/-- Final value of the scan index i: the copy loop then runs j = 0..i. -/
def diaScanLen (buf : Nat → Nat) (base : Nat) : Nat := (diaScan buf base).1

/-- Indices of the diacritics array written by the copy loop
for j in 0..i: diacritics[j] = read_buf[base+j]. -/
def dia_copy_writes (buf : Nat → Nat) (base : Nat) : List Nat :=
  List.range (diaScanLen buf base + 1)

/-- The plane indices (addmap values) at which the key-mapping install
loop of read_keyboard_file writes an entry: the loop runs addmap from 0
while addmap < scan_length, breaks as soon as addmap exceeds
additional_planes+2, and writes only when the character byte at
charptr = pos + addmap*(2 if the S-flag is set else 1) is nonzero. -/
def install_aux (buf : Nat → Nat) (pos ap : Nat) (sflag : Bool) : Nat → Nat → List Nat
  | 0, _ => []
  | n + 1, addmap =>
    if ap + 2 < addmap then []
    else
      (if buf (pos + addmap * (if sflag then 2 else 1)) % 256 ≠ 0 then [addmap] else []) ++
        install_aux buf pos ap sflag n (addmap + 1)

/-- Plane indices installed for one record (data bytes at pos, given
additional_planes ap, the S-flag and scan_length sl). -/
def install_planes (buf : Nat → Nat) (pos ap : Nat) (sflag : Bool) (sl : Nat) : List Nat :=
  install_aux buf pos ap sflag sl 0

/-- The current_layout indices written while processing one key-mapping
record whose header byte sits at q (scan byte, then flags/length byte,
then command byte, then the data bytes): entry cells scan*12+addmap and
the command row scan*12+10 for each installed plane, plus the per-key
flag row scan*12+11 — all guarded only by (scan and 0x7f) being at most
MAX_SCAN_CODE, with the unmasked scan multiplying into the index. -/
def record_writes (buf : Nat → Nat) (q ap : Nat) : List Nat :=
  let scan := buf q % 256
  let flags := buf (q + 1) % 256
  let sl := (flags &&& 7) + 1
  let sflag := flags &&& 0x80 != 0
  if scan &&& 0x7f ≤ MAX_SCAN_CODE then
    ((install_planes buf (q + 3) ap sflag sl).map (fun p => scan * layout_pages + p)) ++
      ((install_planes buf (q + 3) ap sflag sl).map (fun _ => scan * layout_pages + 10)) ++
      [scan * layout_pages + 11]
  else []

/-- The install loop acting on the current_layout array: for each
installed plane write the (possibly two-byte) character and update the
command-bit row (clear bit addmap, then or in the command byte's bit). -/
def install_loop_cl (buf : Nat → Nat) (pos scan ap cmdbyte : Nat) (sflag : Bool) :
    Nat → Nat → (Nat → Nat) → (Nat → Nat)
  | 0, _, cl => cl
  | n + 1, addmap, cl =>
    if ap + 2 < addmap then cl
    else
      let charptr := pos + addmap * (if sflag then 2 else 1)
      let k0 := buf charptr % 256
      let cl1 :=
        if k0 ≠ 0 then
          let kchar := if sflag then k0 ||| ((buf (charptr + 1) % 256) <<< 8) else k0
          let cla := upd cl (scan * layout_pages + addmap) kchar
          upd cla (scan * layout_pages + 10)
            ((cla (scan * layout_pages + 10) &&& (65535 ^^^ (1 <<< addmap))) |||
              (cmdbyte &&& (1 <<< addmap)))
        else cl
      install_loop_cl buf pos scan ap cmdbyte sflag n (addmap + 1) cl1

/-- The submapping-table record loop of read_keyboard_file: read records
(scan byte 0 terminates) while the running byte count i stays below
bytes_read, install each record whose (scan and 0x7f) is at most
MAX_SCAN_CODE, update the per-key flag row, and advance by the (doubled,
when the S-flag applied) scan_length. The S-flag doubling sits inside
the scan-code guard, exactly as in the source. -/
def record_loop (buf : Nat → Nat) (bytes_read ap : Nat) :
    Nat → Nat → Nat → (Nat → Nat) → (Nat → Nat)
  | 0, _, _, cl => cl
  | f + 1, pos, i, cl =>
    if i < bytes_read then
      let scan := buf pos % 256
      let pos1 := pos + 1
      if scan = 0 then cl
      else
        let flags := buf pos1 % 256
        let sl := (flags &&& 7) + 1
        let cmdbyte := buf (pos1 + 1) % 256
        let pos2 := pos1 + 2
        let i1 := i + 3
        let sflag := flags &&& 0x80 ≠ 0
        if scan &&& 0x7f ≤ MAX_SCAN_CODE then
          let cl1 := install_loop_cl buf pos2 scan ap cmdbyte (decide sflag) sl 0 cl
          let nf0 := cl1 (scan * layout_pages + 11) % 65536 &&& 7
          let nf1 := if nf0 < flags &&& 7 then flags &&& 7 else nf0
          let nf := nf1 ||| ((flags ||| cl1 (scan * layout_pages + 11) % 65536) &&& 0xf0)
          let cl2 := upd cl1 (scan * layout_pages + 11) nf
          let sl2 := if sflag then sl * 2 else sl
          record_loop buf bytes_read ap f (pos2 + sl2) (i1 + sl2) cl2
        else
          record_loop buf bytes_read ap f (pos2 + sl) (i1 + sl) cl
    else cl

/-- One submapping-loop state: found flag plus layout state. The loop
checks all submappings while none matched; sub is forced to the specific
layout index (cast to 16 bits) from the second iteration on when a
specific layout was requested. size is read_buf_size; bytes_read is the
uint32 difference read_buf_size - read_buf_pos (wrapping when the table
offset points past the read data, as in the source). -/
def submap_loop (buf : Nat → Nat) (size start_pos submappings : Nat)
    (specific : Option Nat) (req_cp : Nat) :
    Nat → Nat → Bool → KL → Bool × KL
  | 0, _, found, s => (found, s)
  | f + 1, sub0, found, s =>
    if sub0 < submappings ∧ found = false then
      let sub := match specific with
        | some n => if sub0 ≠ 0 then n % 65536 else sub0
        | none => sub0
      let submap_cp := readw16 buf (start_pos + 0x14 + sub * 8)
      if submap_cp ≠ 0 ∧ submap_cp ≠ req_cp ∧ specific = none then
        submap_loop buf size start_pos submappings specific req_cp f (sub + 1) found s
      else
        let found1 := if submap_cp = req_cp then true else found
        let dia_off := readw16 buf (start_pos + 0x18 + sub * 8)
        let s1 := { s with diacritics_entries := 0 }
        let s2 :=
          if dia_off ≠ 0 then
            let sc := diaScan buf (start_pos + dia_off)
            { s1 with
              diacritics_entries := sc.2
              diacritics := fun j =>
                if j ≤ sc.1 then buf (start_pos + dia_off + j) % 256 else s1.diacritics j }
          else s1
        let tbl_off := readw16 buf (start_pos + 0x16 + sub * 8)
        if tbl_off = 0 then
          submap_loop buf size start_pos submappings specific req_cp f (sub + 1) found1 s2
        else
          let rpos := start_pos + tbl_off
          let bytes_read := (size + 4294967296 - rpos % 4294967296) % 4294967296
          let cl2 := record_loop buf bytes_read s2.additional_planes (bytes_read + 1) rpos 0
            s2.current_layout
          let s3 := { s2 with current_layout := cl2 }
          if specific = some sub then (found1, s3)
          else submap_loop buf size start_pos submappings specific req_cp f (sub + 1) found1 s3
    else (found, s)

/-- keyboard_layout::read_keyboard_file. The file acquisition (direct KL
file, the four library files, the four built-in blobs) is summarised by
the parameters: nameIsNone is the early no-op, found says some source
yielded bytes, magicOk is the KLF magic check of the direct-file path,
buf/size are the bytes read into read_buf and their count, start0 the
initial start_pos (5 for a bare file, 0 for a library record). specific
is the optional forced submapping; req_cp is the requested codepage.
Returns (error code, state). -/
def read_keyboard_file (s : KL) (nameIsNone found magicOk : Bool)
    (buf : Nat → Nat) (size start0 : Nat) (specific : Option Nat) (req_cp : Nat) :
    Nat × KL :=
  let s0 := reset s
  if nameIsNone then (KEYB_NOERROR, s0)
  else if found = false then (KEYB_FILENOTFOUND, s0)
  else if magicOk = false then (KEYB_INVALIDFILE, s0)
  else
    let data_len := buf start0 % 256
    let start_pos := start0 + 1 + data_len
    let submappings := buf start_pos % 256
    let ap0 := buf (start_pos + 1) % 256
    let ap := if layout_pages - 4 < ap0 then layout_pages - 4 else ap0
    let pbase := start_pos + 0x14 + submappings * 8
    let planes1 : Nat → PlanePred := fun i =>
      if i < ap then
        { required_flags := readw16 buf (pbase + 8 * i)
          forbidden_flags := readw16 buf (pbase + 8 * i + 2)
          required_userflags := readw16 buf (pbase + 8 * i + 4)
          forbidden_userflags := readw16 buf (pbase + 8 * i + 6) }
      else resetPlane
    let ulm := (List.range ap).foldl
      (fun a i => a ||| (readw16 buf (pbase + 8 * i) &&& 0x70)) 0x0f
    let s1 := { s0 with
      additional_planes := ap
      current_layout_planes := planes1
      used_lock_modifiers := ulm }
    let r := submap_loop buf size start_pos submappings specific req_cp
      (submappings + 2) 0 false s1
    if r.1 then (KEYB_NOERROR, { r.2 with use_foreign_layout := true })
    else (KEYB_LAYOUTNOTFOUND, reset r.2)

/-! ### CPI/CPX code-page parser (keyboard_layout::read_codepage_file) -/

/-- keyboard_layout::get_CPX_file_id: the closed codepage-id to built-in
CPX blob index table; -1 for an unknown id. -/
def get_CPX_file_id (c : Nat) : Int :=
  if c = 437 ∨ c = 850 ∨ c = 852 ∨ c = 853 ∨ c = 857 ∨ c = 858 then 0
  else if c = 775 ∨ c = 859 ∨ c = 1116 ∨ c = 1117 ∨ c = 1118 ∨ c = 1119 then 1
  else if c = 771 ∨ c = 772 ∨ c = 808 ∨ c = 855 ∨ c = 866 ∨ c = 872 then 2
  else if c = 848 ∨ c = 849 ∨ c = 1125 ∨ c = 1131 ∨ c = 3012 ∨ c = 30010 then 3
  else if c = 113 ∨ c = 737 ∨ c = 851 ∨ c = 869 then 4
  else if c = 899 ∨ c = 30008 ∨ c = 58210 ∨ c = 59829 ∨ c = 60258 ∨ c = 60853 then 5
  else if c = 30011 ∨ c = 30013 ∨ c = 30014 ∨ c = 30017 ∨ c = 30018 ∨ c = 30019 then 6
  else if c = 770 ∨ c = 773 ∨ c = 774 ∨ c = 777 ∨ c = 778 then 7
  else if c = 860 ∨ c = 861 ∨ c = 863 ∨ c = 865 ∨ c = 867 then 8
  else if c = 667 ∨ c = 668 ∨ c = 790 ∨ c = 991 ∨ c = 3845 then 9
  else if c = 30000 ∨ c = 30001 ∨ c = 30004 ∨ c = 30007 ∨ c = 30009 then 10
  else if c = 30003 ∨ c = 30029 ∨ c = 30030 ∨ c = 58335 then 11
  else if c = 895 ∨ c = 30002 ∨ c = 58152 ∨ c = 59234 ∨ c = 62306 then 12
  else if c = 30006 ∨ c = 30012 ∨ c = 30015 ∨ c = 30016 ∨ c = 30020 ∨ c = 30021 then 13
  else if c = 30023 ∨ c = 30024 ∨ c = 30025 ∨ c = 30026 ∨ c = 30027 ∨ c = 30028 then 14
  else if c = 3021 ∨ c = 30005 ∨ c = 30022 ∨ c = 30031 ∨ c = 30032 then 15
  else if c = 862 ∨ c = 864 ∨ c = 30034 ∨ c = 30033 ∨ c = 30039 ∨ c = 30040 then 16
  else if c = 856 ∨ c = 3846 ∨ c = 3848 then 17
  else -1

/-- The plain-CPI signature test on the first five file bytes
(0xff then the letters F O N T). -/
def is_font_header (b : Nat → Nat) : Bool :=
  b 0 % 256 == 0xff && b 1 % 256 == 0x46 && b 2 % 256 == 0x4f &&
    b 3 % 256 == 0x4e && b 4 % 256 == 0x54

/-- The DR-DOS detection condition exactly as written in the source:
first byte 0x7f AND each of bytes 1..4 DIFFERENT from the letters
D R F underscore. -/
def drdos_condition (b : Nat → Nat) : Bool :=
  b 0 % 256 == 0x7f && b 1 % 256 != 0x44 && b 2 % 256 != 0x52 &&
    b 3 % 256 != 0x46 && b 4 % 256 != 0x5f

/-- Modelled from the spec: a header beginning 0x7f, the letter D, R, F
and an underscore is the unsupported DR-DOS variant (the spec's
detection predicate, for comparison with drdos_condition). -/
def drdos_magic_spec (b : Nat → Nat) : Bool :=
  b 0 % 256 == 0x7f && b 1 % 256 == 0x44 && b 2 % 256 == 0x52 &&
    b 3 % 256 == 0x46 && b 4 % 256 == 0x5f

/-- How the header dispatch of read_codepage_file classifies the first
five bytes of an opened file. -/
inductive CpHeaderClass
  | font
  | drdosRejected
  | upxScan
deriving Repr, DecidableEq

/-- The header dispatch: plain CPI, the (inverted, per the source)
DR-DOS rejection, otherwise fall through to the UPX scan. -/
def classify_cp_header (b : Nat → Nat) : CpHeaderClass :=
  if is_font_header b then CpHeaderClass.font
  else if drdos_condition b then CpHeaderClass.drdosRejected
  else CpHeaderClass.upxScan

/-- The UPX identifier scan: the second fread leaves file bytes 5..104 in
the scan buffer and the string search finds the first position p (p at
most 96) where the four bytes U P X bang appear. -/
def upx_scan (b : Nat → Nat) : Option Nat :=
  (List.range 97).find? (fun p =>
    b (5 + p) % 256 == 0x55 && b (5 + p + 1) % 256 == 0x50 &&
      b (5 + p + 2) % 256 == 0x58 && b (5 + p + 3) % 256 == 0x21)

/-- A bounds-checked 16-bit read through std::array::at: the at() call
checks the first index against the 65536-byte cpi_buf (host_readw then
reads the following byte unchecked). -/
def at16 (b : Nat → Nat) (i : Nat) : Option Nat :=
  if i < 65536 then some (b i % 256 + (b (i + 1) % 256) * 256) else none

/-- A bounds-checked 32-bit read through std::array::at (check on the
first index only, as in the source). -/
def at32 (b : Nat → Nat) (i : Nat) : Option Nat :=
  if i < 65536 then
    some (b i % 256 + (b (i + 1) % 256) * 256 + (b (i + 2) % 256) * 65536 +
      (b (i + 3) % 256) * 16777216)
  else none

/-- The unchecked host_readd over cpi_buf (used once, at the constant
offset 0x13 guarded by a static_assert). -/
def readd_raw (b : Nat → Nat) (i : Nat) : Nat :=
  b i % 256 + (b (i + 1) % 256) * 256 + (b (i + 2) % 256) * 65536 +
    (b (i + 3) % 256) * 16777216

/-- Result of the CPI body walk: a match installed fonts (fontChanged
tells whether any known height was seen), no match after the announced
number of code pages, or an std::out_of_range throw from an at() access. -/
inductive BodyResult
  | ok (fontChanged : Bool)
  | invalid
  | thrown
deriving Repr, DecidableEq

/-- The font-loading loop of the matched code-page entry: for each of the
announced fonts read the height byte (through at()), skip the 6-byte
header, copy 16/14/8-line glyph data (each copied byte goes through
at(); the test condensed to the largest index), advance by height*256. -/
def font_loop (b : Nat → Nat) : Nat → Nat → Bool → Except Unit Bool
  | 0, _, ch => Except.ok ch
  | n + 1, data, ch =>
    if data < 65536 then
      let fh := b data % 256
      let d1 := data + 6
      if fh = 0x10 then
        if d1 + 256 * 16 - 1 < 65536 then font_loop b n (d1 + fh * 256) true
        else Except.error ()
      else if fh = 0x0e then
        if d1 + 256 * 14 - 1 < 65536 then font_loop b n (d1 + fh * 256) true
        else Except.error ()
      else if fh = 0x08 then
        if d1 + 128 * 8 + 128 * 8 - 1 < 65536 then font_loop b n (d1 + fh * 256) true
        else Except.error ()
      else font_loop b n (d1 + fh * 256) ch
    else Except.error ()

/-- The code-page entry walk of read_codepage_file: for each of the
announced code pages read device type, font codepage, the font-data
header pointer and the font type (all through at()); on a display entry
of font type 1 matching the wanted codepage load the fonts; otherwise
follow the linked-list next-pointer (read_u32 at the entry start, plus
2). Exhausting the count yields the InvalidCPFile return. -/
def cpi_body_loop (b : Nat → Nat) (cpId : Nat) : Nat → Nat → BodyResult
  | 0, _ => BodyResult.invalid
  | n + 1, start =>
    match at16 b (start + 0x04) with
    | none => BodyResult.thrown
    | some deviceType =>
      match at16 b (start + 0x0e) with
      | none => BodyResult.thrown
      | some fontCp =>
        match at32 b (start + 0x16) with
        | none => BodyResult.thrown
        | some hdr =>
          match at16 b hdr with
          | none => BodyResult.thrown
          | some fontType =>
            if deviceType = 1 ∧ fontType = 1 ∧ fontCp = cpId then
              match at16 b (hdr + 2) with
              | none => BodyResult.thrown
              | some nFonts =>
                match font_loop b nFonts (hdr + 6) false with
                | Except.error _ => BodyResult.thrown
                | Except.ok ch => BodyResult.ok ch
            else
              match at32 b start with
              | none => BodyResult.thrown
              | some nxt => cpi_body_loop b cpId n (nxt + 2)

/-- Overall status of a read_codepage_file call. thrown is an escaped
std::out_of_range exception; exited is an E_Exit abort (oversized CPX
payload or failed DOS memory allocation). -/
inductive CpStatus
  | noerror
  | invalidCPFile
  | thrown
  | exited
deriving Repr, DecidableEq

/-- Observable outcome of read_codepage_file: the status, the resulting
dos.loaded_codepage, whether a file open was attempted, whether the UPX
far-call decompression ran, and whether any font table was written. -/
structure CpResult where
  status : CpStatus
  loadedCp : Nat
  openedFile : Bool
  ranDecompress : Bool
  fontChanged : Bool
deriving Repr, DecidableEq

/-- External collaborators of read_codepage_file: the opened file (after
the CPI/CPX extension retry), the built-in blob for the codepage's CPX
id, the bytes produced by the UPX far-call decompression, and whether
the DOS memory allocation succeeds. -/
structure CpFileEnv where
  filePresent : Bool
  fileBytes : Nat → Nat
  fileSize : Nat
  blobBytes : Nat → Nat
  blobSize : Nat
  upxOutput : Nat → Nat
  allocOk : Bool

/-- The CPI body parse shared by all acquisition paths: read the u32 at
offset 0x13, reject when it is not below the data size, read the
code-page count through at(), walk the entries. -/
def parse_body (bufSize : Nat) (b : Nat → Nat) (cpId loadedCp : Nat)
    (opened ranUpx : Bool) : CpResult :=
  let start0 := readd_raw b 0x13
  if bufSize ≤ start0 then ⟨CpStatus.invalidCPFile, loadedCp, opened, ranUpx, false⟩
  else
    match at16 b start0 with
    | none => ⟨CpStatus.thrown, loadedCp, opened, ranUpx, false⟩
    | some nCp =>
      match cpi_body_loop b cpId nCp (start0 + 4) with
      | BodyResult.ok ch => ⟨CpStatus.noerror, cpId, opened, ranUpx, ch⟩
      | BodyResult.invalid => ⟨CpStatus.invalidCPFile, loadedCp, opened, ranUpx, false⟩
      | BodyResult.thrown => ⟨CpStatus.thrown, loadedCp, opened, ranUpx, false⟩

/-- The UPX branch: E_Exit when the compressed payload exceeds 0xfe00
bytes or no conventional memory is available, otherwise the far-call
decompressor fills cpi_buf (env.upxOutput) and the body is parsed with
cpi_buf_size 65536. -/
def upx_and_parse (sizeOfCpx : Nat) (cpId loadedCp : Nat) (env : CpFileEnv) : CpResult :=
  if 0xfe00 < sizeOfCpx then ⟨CpStatus.exited, loadedCp, true, false, false⟩
  else if env.allocOk = false then ⟨CpStatus.exited, loadedCp, true, false, false⟩
  else parse_body 65536 env.upxOutput cpId loadedCp true true

/-- keyboard_layout::read_codepage_file. nameIsNone / nameIsAuto encode
the codepage_file_name argument; cpId is codepage_id and loadedCp the
session's dos.loaded_codepage. All downstream behaviour (early returns,
auto-name lookup, built-in fallback, header dispatch including the
as-written DR-DOS condition, the UPX scan and version gate, the body
parse) follows the source; the far-call decompression output comes from
the environment. -/
def read_codepage_file (nameIsNone nameIsAuto : Bool) (cpId loadedCp : Nat)
    (env : CpFileEnv) : CpResult :=
  if nameIsNone then ⟨CpStatus.noerror, loadedCp, false, false, false⟩
  else if cpId = loadedCp then ⟨CpStatus.noerror, loadedCp, false, false, false⟩
  else if nameIsAuto ∧ get_CPX_file_id cpId < 0 then
    ⟨CpStatus.invalidCPFile, loadedCp, false, false, false⟩
  else if env.filePresent = false then
    if get_CPX_file_id cpId < 0 then ⟨CpStatus.invalidCPFile, loadedCp, true, false, false⟩
    else upx_and_parse env.blobSize cpId loadedCp env
  else if env.fileSize < 5 then ⟨CpStatus.invalidCPFile, loadedCp, true, false, false⟩
  else if is_font_header env.fileBytes then
    parse_body (min env.fileSize 65536) env.fileBytes cpId loadedCp true false
  else if drdos_condition env.fileBytes then
    ⟨CpStatus.invalidCPFile, loadedCp, true, false, false⟩
  else if env.fileSize < 105 then ⟨CpStatus.invalidCPFile, loadedCp, true, false, false⟩
  else
    match upx_scan env.fileBytes with
    | none => ⟨CpStatus.invalidCPFile, loadedCp, true, false, false⟩
    | some p =>
      if env.fileBytes (5 + p + 4) % 256 < 10 then
        ⟨CpStatus.invalidCPFile, loadedCp, true, false, false⟩
      else upx_and_parse (min env.fileSize 65536) cpId loadedCp env

/-! ### Session manager -/

/-- Return channel of switch_keyboard_layout: a returned Bitu code, an
escaped exception from the code-page parse, or an E_Exit abort. -/
inductive SwitchRet
  | code (n : Nat)
  | thrown
  | exited
deriving Repr, DecidableEq

/-- External collaborators of a switch_keyboard_layout call that builds a
temporary layout: the KL-file acquisition for the new layout name, the
extract_codepage result for that file, the code-page environment for the
automatic code-page load, and the garbage content of the fresh temporary
layout's uninitialized diacritics array. -/
structure SwitchEnv where
  klNameIsNone : Bool
  klFound : Bool
  klMagicOk : Bool
  klBuf : Nat → Nat
  klSize : Nat
  klStart : Nat
  extractCp : Nat
  cpEnv : CpFileEnv
  garbage : Nat → Nat

/-- keyboard_layout::switch_keyboard_layout. startsUS is the
strncasecmp(new_layout, US, 2) == 0 test; langFound says the new name
matches one of the loaded layout's language codes. Returns (return
channel, state of this layout after the call, dos.loaded_codepage after
the call, created_layout out-parameter). -/
def switch_keyboard_layout (s : KL) (loadedCp : Nat) (startsUS langFound : Bool)
    (env : SwitchEnv) : SwitchRet × KL × Nat × Option KL :=
  if startsUS = false then
    if langFound then
      if s.use_foreign_layout = false then
        (SwitchRet.code KEYB_NOERROR,
          { s with use_foreign_layout := true, diacritics_character := 0 }, loadedCp, none)
      else (SwitchRet.code KEYB_NOERROR, s, loadedCp, none)
    else
      let temp := initState env.garbage
      let req := env.extractCp
      let pr := read_keyboard_file temp env.klNameIsNone env.klFound env.klMagicOk
        env.klBuf env.klSize env.klStart none req
      if pr.1 ≠ KEYB_NOERROR then (SwitchRet.code pr.1, s, loadedCp, none)
      else
        let cr := read_codepage_file false true req loadedCp env.cpEnv
        match cr.status with
        | CpStatus.noerror => (SwitchRet.code KEYB_NOERROR, s, cr.loadedCp, some pr.2)
        | CpStatus.invalidCPFile => (SwitchRet.code KEYB_INVALIDCPFILE, s, loadedCp, none)
        | CpStatus.thrown => (SwitchRet.thrown, s, loadedCp, none)
        | CpStatus.exited => (SwitchRet.exited, s, loadedCp, none)
  else if s.use_foreign_layout then
    (SwitchRet.code KEYB_NOERROR,
      { s with use_foreign_layout := false, diacritics_character := 0 }, loadedCp, none)
  else (SwitchRet.code KEYB_NOERROR, s, loadedCp, none)

/-- DOS_SwitchKeyboardLayout: 0xff when no layout is loaded; otherwise
delegate and, when a new layout was created, delete the old one and
activate the new. Returns (return channel, active layout after,
dos.loaded_codepage after). -/
def DOS_SwitchKeyboardLayout (sess : Option KL) (loadedCp : Nat)
    (startsUS langFound : Bool) (env : SwitchEnv) : SwitchRet × Option KL × Nat :=
  match sess with
  | none => (SwitchRet.code 0xff, none, loadedCp)
  | some l =>
    let r := switch_keyboard_layout l loadedCp startsUS langFound env
    match r.2.2.2 with
    | some nl => (r.1, some nl, r.2.2.1)
    | none => (r.1, some r.2.1, r.2.2.1)

/-- DOS_LayoutKey: delegate to the loaded layout, false when none. -/
def DOS_LayoutKey (rp : Nat → KL → KL) (sess : Option KL) (key f1 f2 f3 : Nat) :
    Bool × List Nat × Option KL :=
  match sess with
  | none => (false, [], none)
  | some l =>
    let r := layout_key rp l key f1 f2 f3
    (r.1, r.2.1, some r.2.2)

/-- The diacritics-character invariant of claim C9: no pending dead key,
or a wire-encoded value at least 200 and below diacritics_entries+200. -/
def Inv (s : KL) : Prop :=
  s.diacritics_character = 0 ∨
    (200 ≤ s.diacritics_character ∧
      s.diacritics_character < s.diacritics_entries + 200)

/-! ### Concrete inputs used by witnesses and counterexamples -/

/-- A no-op re-parse environment (current layout file name none). -/
def rp0 : Nat → KL → KL := fun _ t => t

/-- Zeroed garbage for the uninitialized diacritics member. -/
def g0 : Nat → Nat := fun _ => 0

/-- A one-entry diacritics table: lead 0x5e (circumflex), one pair
mapping character 0x12 to 0xea. -/
def d0 : Nat → Nat := fun i =>
  if i = 0 then 0x5e else if i = 1 then 1 else if i = 2 then 0x12
  else if i = 3 then 0xea else 0

/-- A freshly constructed layout whose diacritics table is d0 with one
entry loaded. -/
def exS : KL := { initState d0 with diacritics_entries := 1 }

/-- The same layout in foreign mode with the dead key 200 pending. -/
def exS3 : KL :=
  { initState d0 with
    diacritics_entries := 1, diacritics_character := 200, use_foreign_layout := true }

/-- A key-mapping record with scan byte 0xd8 (whose low 7 bits pass the
MAX_SCAN_CODE guard), scan_length 1, no flags, one nonzero data byte. -/
def klRecordBuf : Nat → Nat := fun i =>
  if i = 0 then 0xd8 else if i = 1 then 0 else if i = 2 then 0 else 1

/-- A file beginning with the genuine DR-DOS magic 0x7f D R F underscore,
followed by a UPX identifier with version 13. -/
def f6 : Nat → Nat := fun i =>
  if i = 0 then 0x7f else if i = 1 then 0x44 else if i = 2 then 0x52
  else if i = 3 then 0x46 else if i = 4 then 0x5f else if i = 5 then 0x55
  else if i = 6 then 0x50 else if i = 7 then 0x58 else if i = 8 then 0x21
  else if i = 9 then 13 else 0

/-- A header that the as-written DR-DOS condition does match: first byte
0x7f and the remaining magic bytes all different from D R F underscore. -/
def f6inv : Nat → Nat := fun i => if i = 0 then 0x7f else 0

/-- A minimal decompressor output that parses as a CPI body with one
display code-page entry for codepage 850 and zero fonts. -/
def u6 : Nat → Nat := fun i =>
  if i = 0x13 then 0x20 else if i = 0x20 then 1 else if i = 0x28 then 1
  else if i = 0x32 then 0x52 else if i = 0x33 then 0x03 else if i = 0x3a then 0x60
  else if i = 0x60 then 1 else 0

/-- Environment presenting f6 as a 200-byte file whose far-call
decompression yields u6. -/
def env6 : CpFileEnv :=
  { filePresent := true, fileBytes := f6, fileSize := 200, blobBytes := fun _ => 0,
    blobSize := 0, upxOutput := u6, allocOk := true }

/-- An uncompressed CPI announcing two code pages whose first entry's
next-pointer (read at the entry start) is 0xfffff0, far beyond the
65536-byte cpi_buf. -/
def f8 : Nat → Nat := fun i =>
  if i = 0 then 0xff else if i = 1 then 0x46 else if i = 2 then 0x4f
  else if i = 3 then 0x4e else if i = 4 then 0x54 else if i = 0x13 then 0x20
  else if i = 0x20 then 2 else if i = 0x24 then 0xf0 else if i = 0x25 then 0xff
  else if i = 0x26 then 0xff else 0

/-- Environment presenting f8 as a 256-byte file. -/
def env8 : CpFileEnv :=
  { filePresent := true, fileBytes := f8, fileSize := 0x100, blobBytes := fun _ => 0,
    blobSize := 0, upxOutput := fun _ => 0, allocOk := true }

/-- A trivial code-page environment (no file, empty blob). -/
def envTriv : CpFileEnv :=
  { filePresent := false, fileBytes := fun _ => 0, fileSize := 0, blobBytes := fun _ => 0,
    blobSize := 0, upxOutput := fun _ => 0, allocOk := true }

/-- A trivial switch environment: the KL file for the new name is not
found anywhere. -/
def switchEnvTriv : SwitchEnv :=
  { klNameIsNone := false, klFound := false, klMagicOk := false, klBuf := fun _ => 0,
    klSize := 0, klStart := 0, extractCp := 437, cpEnv := envTriv, garbage := fun _ => 0 }

/-- The dead-key sequence of claim C2: a lead dispatched through map_key
as a command, then a literal dispatched through map_key; returns both
call results. -/
def deadkey_seq (rp : Nat → KL → KL) (s : KL) (key1 key2 lkLead lkLit : Nat)
    (isp1 isp2 : Bool) : (Bool × List Nat × KL) × (Bool × List Nat × KL) :=
  let r1 := map_key rp s key1 lkLead true isp1
  (r1, map_key rp r1.2.2 key2 lkLit false isp2)

/-- The values the literal of a pending dead key enqueues, per the
source: the matching pair's second byte alone on a sub-table hit, or the
sub-table lead byte FOLLOWED by the literal's own plain mapping (two
values) on a miss. -/
def dia_expected (s : KL) (key2 lead lit : Nat) (isp : Bool) : List Nat :=
  let start := dia_sub_start s.diacritics (lead % 256 - 200)
  match dia_find s.diacritics (start + 2) (s.diacritics (start + 1) % 256) (lit % 256) with
  | some b => [emit16 key2 b]
  | none => [emit16 key2 (s.diacritics start % 256), plain_emit key2 lit isp]

/-- State component of a layout_key phase outcome (either the returned
triple's state or the fall-through state). -/
def psState : ((Bool × List Nat × KL) ⊕ (KL × List Nat)) → KL
  | Sum.inl r => r.2.2
  | Sum.inr p => p.1

/-! ### Claim C1 -/

/-- C1: the claim states that no parse step of the KL/KCL parsers reads
or writes outside the buffers involved. The code violates this: a record
whose scan byte is 0xd8 passes the (scan and 0x7f) guard yet indexes
current_layout at 0xd8*12 = 2592 and beyond, past the array size 1068;
and a diacritics table whose byte stream never hits a zero lead within
2048 bytes drives the scan index to 2048, so the copy loop (j running up
to and including i) writes diacritics[2048], one past the 2048-byte
array. -/
theorem C1_bounds_violation :
    layout_table_size = 1068 ∧
    (0xd8 * layout_pages) ∈ record_writes klRecordBuf 0 0 ∧
    layout_table_size ≤ 0xd8 * layout_pages ∧
    diaScanLen (fun _ => 255) 0 = 2048 ∧
    2048 ∈ dia_copy_writes (fun _ => 255) 0 ∧
    diacritics_size ≤ 2048 := by decide

/-! ### Claim C5 -/

/-- C5: with use_foreign_layout false, layout_key (translate) returns
false, enqueues nothing and leaves the whole layout state unchanged, for
every scan code and flag combination. -/
theorem C5_passthrough (rp : Nat → KL → KL) (s : KL) (key f1 f2 f3 : Nat)
    (h : s.use_foreign_layout = false) :
    layout_key rp s key f1 f2 f3 = (false, [], s) := by
  unfold layout_key
  rw [h]
  split <;> simp

/-- Witness for C5 at a concrete input. -/
theorem C5_witness :
    layout_key rp0 (initState g0) 5 0 0 0 = (false, [], initState g0) :=
  C5_passthrough rp0 (initState g0) 5 0 0 0 rfl

/-! ### Claim C6 -/

/-- C6: the claim states that a file whose first five bytes are the
DR-DOS magic 0x7f D R F underscore is detected and rejected with
InvalidCPFile. The source's detection condition compares bytes 1..4 with
inequality, so the genuine magic is NOT detected (the header is sent to
the UPX scan instead, and with a UPX identifier present the file is
decompressed and can even load successfully), while a header the
condition does match is one whose bytes 1..4 all differ from the magic
letters. -/
theorem C6_drdos_not_detected :
    drdos_magic_spec f6 = true ∧
    classify_cp_header f6 = CpHeaderClass.upxScan ∧
    (read_codepage_file false false 850 437 env6).status = CpStatus.noerror ∧
    (read_codepage_file false false 850 437 env6).ranDecompress = true ∧
    (read_codepage_file false false 850 437 env6).loadedCp = 850 ∧
    drdos_condition f6inv = true ∧
    drdos_magic_spec f6inv = false := by decide

/-! ### Claim C7 -/

/-- Membership in the install loop's result: the loop visits addmap from
a for n steps, breaks once addmap exceeds ap+2, and collects the planes
whose character byte is nonzero. -/
theorem install_aux_mem (buf : Nat → Nat) (pos ap : Nat) (sflag : Bool) :
    ∀ (n a p : Nat), p ∈ install_aux buf pos ap sflag n a ↔
      (a ≤ p ∧ p < a + n ∧ p ≤ ap + 2 ∧
        buf (pos + p * (if sflag then 2 else 1)) % 256 ≠ 0) := by
  intro n
  induction n with
  | zero =>
    intro a p
    simp only [install_aux, List.not_mem_nil, false_iff]
    omega
  | succ m ih =>
    intro a p
    unfold install_aux
    by_cases hb : ap + 2 < a
    · simp only [if_pos hb, List.not_mem_nil, false_iff]
      omega
    · rw [if_neg hb, List.mem_append, ih (a + 1) p]
      by_cases hk : buf (pos + a * (if sflag then 2 else 1)) % 256 ≠ 0
      · rw [if_pos hk]
        constructor
        · rintro (h1 | ⟨h1, h2, h3, h4⟩)
          · simp only [List.mem_singleton] at h1
            subst h1
            exact ⟨Nat.le_refl _, by omega, by omega, hk⟩
          · exact ⟨by omega, by omega, h3, h4⟩
        · rintro ⟨h1, h2, h3, h4⟩
          by_cases hpa : p = a
          · left; simp [hpa]
          · right; exact ⟨by omega, by omega, h3, h4⟩
      · rw [if_neg hk]
        constructor
        · rintro (h1 | ⟨h1, h2, h3, h4⟩)
          · simp at h1
          · exact ⟨by omega, by omega, h3, h4⟩
        · rintro ⟨h1, h2, h3, h4⟩
          right
          have hpa : p ≠ a := fun he => hk (he ▸ h4)
          exact ⟨by omega, by omega, h3, h4⟩

/-- C7 (amended): the record install loop writes an entry exactly at the
plane indices p with p below scan_length, p at MOST additional_planes+2
(not strictly below, as the claim stated: at most min(scan_length,
additional_planes+3) entries, with plane index additional_planes+2
reachable), and a nonzero character byte at the plane's data position. -/
theorem C7_install_planes (buf : Nat → Nat) (pos ap : Nat) (sflag : Bool) (sl p : Nat) :
    p ∈ install_planes buf pos ap sflag sl ↔
      (p < sl ∧ p ≤ ap + 2 ∧
        buf (pos + p * (if sflag then 2 else 1)) % 256 ≠ 0) := by
  unfold install_planes
  rw [install_aux_mem]
  constructor
  · rintro ⟨h1, h2, h3, h4⟩
    exact ⟨by omega, h3, h4⟩
  · rintro ⟨h1, h2, h3⟩
    exact ⟨Nat.zero_le p, by omega, h2, h3⟩

/-- Counterexample to C7 as stated: with additional_planes 0 and
scan_length 3 the loop installs three entries, at planes 0, 1 and 2 —
not min(scan_length, additional_planes+2) = 2 entries — and plane 2 is
an index at least additional_planes+2. -/
theorem C7_counterexample :
    install_planes (fun _ => 1) 0 0 false 3 = [0, 1, 2] ∧
    (install_planes (fun _ => 1) 0 0 false 3).length = 3 ∧
    min 3 (0 + 2) = 2 ∧
    2 ∈ install_planes (fun _ => 1) 0 0 false 3 ∧
    0 + 2 ≤ 2 := by decide

/-! ### Claim C8 -/

/-- C8 (amended): an entry whose fields lie beyond the 65536-byte
cpi_buf (as after following an out-of-bounds next-pointer) makes the
body walk end in a thrown std::out_of_range, not in InvalidCPFile; only
exhausting the announced code-page count (which is what a non-increasing
pointer chain eventually does) returns InvalidCPFile. -/
theorem C8_pointer_out_of_bounds (b : Nat → Nat) (cpId start fuel : Nat) :
    (65536 ≤ start + 0x16 → 0 < fuel →
      cpi_body_loop b cpId fuel start = BodyResult.thrown) ∧
    cpi_body_loop b cpId 0 start = BodyResult.invalid := by
  constructor
  · intro h hf
    cases fuel with
    | zero => omega
    | succ n =>
      unfold cpi_body_loop
      by_cases h1 : start + 0x04 < 65536
      · by_cases h2 : start + 0x0e < 65536
        · have h3 : ¬ start + 0x16 < 65536 := by omega
          simp [at16, at32, h1, h2, h3]
        · simp [at16, h1, h2]
      · simp [at16, h1]
  · rfl

/-- Witness for the amended C8 at concrete inputs. -/
theorem C8_witness :
    cpi_body_loop (fun _ => 0) 0 1 65536 = BodyResult.thrown ∧
    cpi_body_loop (fun _ => 0) 0 0 65536 = BodyResult.invalid :=
  ⟨(C8_pointer_out_of_bounds (fun _ => 0) 0 65536 1).1 (by omega) (by omega),
    (C8_pointer_out_of_bounds (fun _ => 0) 0 65536 1).2⟩

/-- Counterexample to C8 as stated: a well-formed CPI whose first entry
carries the out-of-bounds next-pointer 0xfffff0 makes read_codepage_file
end in a thrown std::out_of_range instead of returning InvalidCPFile. -/
theorem C8_counterexample :
    (read_codepage_file false false 999 437 env8).status = CpStatus.thrown ∧
    CpStatus.thrown ≠ CpStatus.invalidCPFile := by decide

/-! ### Claim C10 -/

/-- C10: a read_codepage_file call whose file name is none or whose
codepage id equals the session's loaded codepage returns NoError at once
— no file open attempt, no decompression, no font write, loaded
codepage unchanged. -/
theorem C10_codepage_early_exit (nameIsNone nameIsAuto : Bool) (cpId loadedCp : Nat)
    (env : CpFileEnv) (h : nameIsNone = true ∨ cpId = loadedCp) :
    read_codepage_file nameIsNone nameIsAuto cpId loadedCp env =
      ⟨CpStatus.noerror, loadedCp, false, false, false⟩ := by
  unfold read_codepage_file
  rcases h with h | h
  · simp [h]
  · by_cases hn : nameIsNone
    · simp [hn]
    · simp [hn, h]

/-- Witness for C10 at concrete inputs. -/
theorem C10_witness :
    read_codepage_file true false 850 437 envTriv =
      ⟨CpStatus.noerror, 437, false, false, false⟩ :=
  C10_codepage_early_exit true false 850 437 envTriv (Or.inl rfl)

/-! ### Claim C2 -/

/-- C2 (amended): a lead command in 200..234 that leaves a dead key
pending emits nothing and returns true; the following literal dispatched
through map_key returns true, clears the pending state and enqueues the
matching pair's second byte alone on a sub-table hit — but on a miss it
enqueues TWO values, the sub-table lead byte followed by the literal's
own plain mapping (never zero values). -/
theorem C2_deadkey_amended (rp : Nat → KL → KL) (s : KL) (key1 key2 lkLead lkLit : Nat)
    (isp1 isp2 : Bool) (hc1 : 200 ≤ lkLead % 256) (hc2 : lkLead % 256 < 235)
    (hpend : 0 < (deadkey_seq rp s key1 key2 lkLead lkLit isp1 isp2).1.2.2.diacritics_character) :
    (deadkey_seq rp s key1 key2 lkLead lkLit isp1 isp2).1.1 = true ∧
    (deadkey_seq rp s key1 key2 lkLead lkLit isp1 isp2).1.2.1 = [] ∧
    (deadkey_seq rp s key1 key2 lkLead lkLit isp1 isp2).2.1 = true ∧
    (deadkey_seq rp s key1 key2 lkLead lkLit isp1 isp2).2.2.2.diacritics_character = 0 ∧
    (deadkey_seq rp s key1 key2 lkLead lkLit isp1 isp2).2.2.1 =
      dia_expected s key2 lkLead lkLit isp2 := by
  by_cases hE : s.diacritics_entries + 200 ≤ lkLead % 256
  · exfalso
    have h0 : (deadkey_seq rp s key1 key2 lkLead lkLit isp1 isp2).1.2.2.diacritics_character = 0 := by
      simp [deadkey_seq, map_key, hc1, hc2, hE]
    omega
  · have hr1 : map_key rp s key1 lkLead true isp1 =
        (true, [], { s with diacritics_character := lkLead % 256 }) := by
      simp [map_key, hc1, hc2, hE]
    have hdc0 : 0 < lkLead % 256 := by omega
    have hr2 : map_key rp { s with diacritics_character := lkLead % 256 } key2 lkLit false isp2 =
        (true, dia_expected s key2 lkLead lkLit isp2, { s with diacritics_character := 0 }) := by
      cases hf : dia_find s.diacritics (dia_sub_start s.diacritics (lkLead % 256 - 200) + 2)
          (s.diacritics (dia_sub_start s.diacritics (lkLead % 256 - 200) + 1) % 256)
          (lkLit % 256) <;>
        simp [map_key, dia_expected, hdc0, hE, hf]
    refine ⟨?_, ?_, ?_, ?_, ?_⟩ <;> simp [deadkey_seq, hr1, hr2]

/-- Witness for the amended C2 at concrete inputs (a matching literal). -/
theorem C2_witness :
    (deadkey_seq rp0 exS 5 6 200 0x12 false false).1.1 = true ∧
    (deadkey_seq rp0 exS 5 6 200 0x12 false false).1.2.1 = [] ∧
    (deadkey_seq rp0 exS 5 6 200 0x12 false false).2.1 = true ∧
    (deadkey_seq rp0 exS 5 6 200 0x12 false false).2.2.2.diacritics_character = 0 ∧
    (deadkey_seq rp0 exS 5 6 200 0x12 false false).2.2.1 = dia_expected exS 6 200 0x12 false :=
  C2_deadkey_amended rp0 exS 5 6 200 0x12 false false (by decide) (by decide) (by decide)

/-- Counterexample to C2 as stated: the lead 200 leaves a pending dead
key over exS's one-entry table, and the non-matching literal 0x71 makes
map_key enqueue TWO 16-bit values, not exactly one. -/
theorem C2_counterexample :
    0 < (deadkey_seq rp0 exS 5 6 200 0x71 false false).1.2.2.diacritics_character ∧
    ((deadkey_seq rp0 exS 5 6 200 0x71 false false).2.2.1).length = 2 ∧
    (deadkey_seq rp0 exS 5 6 200 0x71 false false).2.2.1 = [0x65e, 0x671] := by decide

/-! ### Claim C3 -/

/-- C3 (amended): when the pending-diacritic step is reached with a
pending dead key and a non-modifier scan code, the pending state is
always cleared; but the operation returns true with no emission ONLY
when the pending value is out of range (at least diacritics_entries +
200); for an in-range pending value it enqueues one value — the scan
code over the sub-table lead byte — and returns false. -/
theorem C3_pending_diacritic (s : KL) (key : Nat)
    (h1 : 0 < s.diacritics_character) (h2 : key ∉ modifier_scan_codes) :
    (diacritic_fallthrough s key).2.2.diacritics_character = 0 ∧
    (s.diacritics_entries + 200 ≤ s.diacritics_character →
      (diacritic_fallthrough s key).1 = true ∧ (diacritic_fallthrough s key).2.1 = []) ∧
    (s.diacritics_character < s.diacritics_entries + 200 →
      (diacritic_fallthrough s key).1 = false ∧
      (diacritic_fallthrough s key).2.1 =
        [emit16 key (s.diacritics
          (dia_sub_start s.diacritics (s.diacritics_character - 200)) % 256)]) := by
  by_cases hE : s.diacritics_entries + 200 ≤ s.diacritics_character
  · refine ⟨?_, fun _ => ⟨?_, ?_⟩, fun hlt => absurd hE (by omega)⟩ <;>
      simp [diacritic_fallthrough, h1, h2, hE]
  · refine ⟨?_, fun hge => absurd hge hE, fun _ => ⟨?_, ?_⟩⟩ <;>
      simp [diacritic_fallthrough, h1, h2, hE]

/-- Witness for the amended C3 at concrete inputs. -/
theorem C3_witness :
    (diacritic_fallthrough exS3 5).2.2.diacritics_character = 0 ∧
    (exS3.diacritics_entries + 200 ≤ exS3.diacritics_character →
      (diacritic_fallthrough exS3 5).1 = true ∧ (diacritic_fallthrough exS3 5).2.1 = []) ∧
    (exS3.diacritics_character < exS3.diacritics_entries + 200 →
      (diacritic_fallthrough exS3 5).1 = false ∧
      (diacritic_fallthrough exS3 5).2.1 =
        [emit16 5 (exS3.diacritics
          (dia_sub_start exS3.diacritics (exS3.diacritics_character - 200)) % 256)]) :=
  C3_pending_diacritic exS3 5 (by decide) (by decide)

/-- Counterexample to C3 as stated: a full translate call on exS3 (dead
key 200 pending over a one-entry table, nothing dispatched for scan
0x12) CLEARS the pending state but returns false and enqueues one value,
whereas the claim requires returning true with nothing enqueued. -/
theorem C3_counterexample :
    (layout_key rp0 exS3 0x12 0 0 0).1 = false ∧
    (layout_key rp0 exS3 0x12 0 0 0).2.1 = [0x125e] ∧
    (layout_key rp0 exS3 0x12 0 0 0).2.2.diacritics_character = 0 := by decide

/-! ### Claim C4 -/

/-- Exhaustive outcome analysis of switch_keyboard_layout: either NoError
is returned, or this layout, the loaded codepage and the created_layout
out-parameter are all untouched. -/
theorem switch_err (l : KL) (loadedCp : Nat) (startsUS langFound : Bool) (env : SwitchEnv) :
    (switch_keyboard_layout l loadedCp startsUS langFound env).1 =
      SwitchRet.code KEYB_NOERROR ∨
    ((switch_keyboard_layout l loadedCp startsUS langFound env).2.1 = l ∧
      (switch_keyboard_layout l loadedCp startsUS langFound env).2.2.1 = loadedCp ∧
      (switch_keyboard_layout l loadedCp startsUS langFound env).2.2.2 = none) := by
  unfold switch_keyboard_layout
  split_ifs
  all_goals try exact Or.inl rfl
  all_goals cases hst : (read_codepage_file false true env.extractCp loadedCp env.cpEnv).status <;>
    simp [hst] <;> split_ifs <;> simp

/-- C4: if DOS_SwitchKeyboardLayout returns a code other than NoError,
the active layout (including its diacritic state) and the loaded
codepage are exactly as before, so every subsequent translate call
produces output identical to a pre-switch capture. -/
theorem C4_switch_atomic (sess : Option KL) (loadedCp : Nat) (startsUS langFound : Bool)
    (env : SwitchEnv) (c : Nat)
    (hret : (DOS_SwitchKeyboardLayout sess loadedCp startsUS langFound env).1 =
      SwitchRet.code c)
    (hc : c ≠ KEYB_NOERROR) :
    (DOS_SwitchKeyboardLayout sess loadedCp startsUS langFound env).2.1 = sess ∧
    (DOS_SwitchKeyboardLayout sess loadedCp startsUS langFound env).2.2 = loadedCp ∧
    ∀ (rp : Nat → KL → KL) (key f1 f2 f3 : Nat),
      DOS_LayoutKey rp (DOS_SwitchKeyboardLayout sess loadedCp startsUS langFound env).2.1
          key f1 f2 f3 =
        DOS_LayoutKey rp sess key f1 f2 f3 := by
  cases sess with
  | none => exact ⟨rfl, rfl, fun _ _ _ _ _ => rfl⟩
  | some l =>
    rcases switch_err l loadedCp startsUS langFound env with h0 | ⟨e1, e2, e3⟩
    · exfalso
      have hw : (DOS_SwitchKeyboardLayout (some l) loadedCp startsUS langFound env).1 =
          (switch_keyboard_layout l loadedCp startsUS langFound env).1 := by
        simp only [DOS_SwitchKeyboardLayout]
        cases hcr : (switch_keyboard_layout l loadedCp startsUS langFound env).2.2.2 <;>
          simp [hcr]
      rw [hw, h0] at hret
      injection hret with h
      exact hc h.symm
    · have hw2 : DOS_SwitchKeyboardLayout (some l) loadedCp startsUS langFound env =
          ((switch_keyboard_layout l loadedCp startsUS langFound env).1,
            some (switch_keyboard_layout l loadedCp startsUS langFound env).2.1,
            (switch_keyboard_layout l loadedCp startsUS langFound env).2.2.1) := by
        simp only [DOS_SwitchKeyboardLayout]
        simp [e3]
      rw [hw2, e1, e2]
      exact ⟨rfl, rfl, fun _ _ _ _ _ => rfl⟩

/-- Witness for C4 at a concrete input (no loaded layout, code 0xff). -/
theorem C4_witness :
    (DOS_SwitchKeyboardLayout none 437 false false switchEnvTriv).2.1 = none ∧
    (DOS_SwitchKeyboardLayout none 437 false false switchEnvTriv).2.2 = 437 ∧
    ∀ (rp : Nat → KL → KL) (key f1 f2 f3 : Nat),
      DOS_LayoutKey rp (DOS_SwitchKeyboardLayout none 437 false false switchEnvTriv).2.1
          key f1 f2 f3 =
        DOS_LayoutKey rp none key f1 f2 f3 :=
  C4_switch_atomic none 437 false false switchEnvTriv 0xff rfl (by decide)

/-! ### Claim C9 -/

/-- map_key preserves the diacritics invariant, assuming the external
re-parse does. -/
theorem map_key_inv (rp : Nat → KL → KL) (hrp : ∀ n t, Inv t → Inv (rp n t))
    (s : KL) (hs : Inv s) (key lk : Nat) (ic ip : Bool) :
    Inv (map_key rp s key lk ic ip).2.2 := by
  simp only [map_key, Inv]
  split
  · split
    · rename_i hc
      by_cases hE : s.diacritics_entries + 200 ≤ lk % 256
      · left; simp [hE]
      · right
        refine ⟨?_, ?_⟩ <;> simp [hE] <;> omega
    · split
      · exact hrp _ _ hs
      · split
        · exact hs
        · split
          · exact hs
          · split
            · exact hs
            · exact hs
  · split
    · split
      · exact Or.inl rfl
      · split
        · exact Or.inl rfl
        · exact Or.inl rfl
    · exact hs

/-- try_map_key preserves the diacritics invariant on its outcome
state. -/
theorem try_map_key_inv (rp : Nat → KL → KL) (hrp : ∀ n t, Inv t → Inv (rp n t))
    (s : KL) (hs : Inv s) (key lk : Nat) (ic isp : Bool) :
    Inv (psState (try_map_key rp s key lk ic isp)) := by
  unfold try_map_key
  rcases hmk : map_key rp s key lk ic isp with ⟨b, es, s1⟩
  have h1 : Inv s1 := by
    have h := map_key_inv rp hrp s hs key lk ic isp
    rw [hmk] at h
    exact h
  cases b <;> exact h1

/-- The fast path preserves the diacritics invariant on its outcome
state. -/
theorem fast_path_inv (rp : Nat → KL → KL) (hrp : ∀ n t, Inv t → Inv (rp n t))
    (s : KL) (hs : Inv s) (key f1 f3 kf : Nat) (isp : Bool) :
    Inv (psState (fast_path rp s key f1 f3 kf isp)) := by
  unfold fast_path
  split_ifs <;> first
    | exact try_map_key_inv rp hrp s hs key _ _ isp
    | exact hs

/-- The additional-plane scan preserves the diacritics invariant on its
outcome state. -/
theorem plane_scan_inv (rp : Nat → KL → KL) (hrp : ∀ n t, Inv t → Inv (rp n t))
    (key cf : Nat) (isp : Bool) :
    ∀ (n cp : Nat) (s : KL) (acc : List Nat), Inv s →
      Inv (psState (plane_scan rp key cf isp n cp s acc)) := by
  intro n
  induction n with
  | zero => intro cp s acc hs; exact hs
  | succ m ih =>
    intro cp s acc hs
    simp only [plane_scan]
    split
    · split
      · split
        · rename_i es1 s1 heq
          have h := map_key_inv rp hrp s hs key (clread s (key * layout_pages + 2 + cp))
            (decide (((clread s (key * layout_pages + layout_pages - 2)) >>> (cp + 2)) &&& 1 ≠ 0))
            isp
          rw [heq] at h
          exact h
        · rename_i es1 s1 heq
          have h := map_key_inv rp hrp s hs key (clread s (key * layout_pages + 2 + cp))
            (decide (((clread s (key * layout_pages + layout_pages - 2)) >>> (cp + 2)) &&& 1 ≠ 0))
            isp
          rw [heq] at h
          exact ih _ _ _ h
      · exact hs
    · exact ih _ _ _ hs

/-- The pending-diacritic step preserves the diacritics invariant. -/
theorem diacritic_fallthrough_inv (s : KL) (hs : Inv s) (key : Nat) :
    Inv (diacritic_fallthrough s key).2.2 := by
  unfold diacritic_fallthrough
  split_ifs <;> first | exact hs | exact Or.inl rfl

/-- layout_key preserves the diacritics invariant, assuming the external
re-parse does. -/
theorem layout_key_inv (rp : Nat → KL → KL) (hrp : ∀ n t, Inv t → Inv (rp n t))
    (s : KL) (hs : Inv s) (key f1 f2 f3 : Nat) :
    Inv (layout_key rp s key f1 f2 f3).2.2 := by
  unfold layout_key
  split
  · exact hs
  · split
    · exact hs
    · have h1 := fast_path_inv rp hrp s hs key f1 f3
        (clread s (key * layout_pages + layout_pages - 1))
        (clread s (key * layout_pages + layout_pages - 1) &&& 0x80 == 0x80)
      split
      · rename_i r heq
        rw [heq] at h1
        exact h1
      · rename_i s1 acc heq
        rw [heq] at h1
        have h2 := plane_scan_inv rp hrp key (current_flags f1 f2 f3)
          (clread s (key * layout_pages + layout_pages - 1) &&& 0x80 == 0x80)
          s1.additional_planes 0 s1 acc h1
        split
        · rename_i r2 heq2
          rw [heq2] at h2
          exact h2
        · rename_i s2 acc2 heq2
          rw [heq2] at h2
          exact diacritic_fallthrough_inv s2 h2 key

/-- The submapping loop never touches the pending diacritic state. -/
theorem submap_loop_dc (buf : Nat → Nat) (size start_pos submappings : Nat)
    (specific : Option Nat) (req_cp : Nat) :
    ∀ (fuel sub : Nat) (found : Bool) (s : KL),
      (submap_loop buf size start_pos submappings specific req_cp
        fuel sub found s).2.diacritics_character = s.diacritics_character := by
  intro fuel
  induction fuel with
  | zero => intro sub found s; rfl
  | succ f ih =>
    intro sub found s
    simp only [submap_loop]
    repeat' split
    all_goals simp [ih]

/-- After read_keyboard_file the pending diacritic is always cleared. -/
theorem read_keyboard_file_dc (s : KL) (nameIsNone found magicOk : Bool)
    (buf : Nat → Nat) (size start0 : Nat) (specific : Option Nat) (req_cp : Nat) :
    (read_keyboard_file s nameIsNone found magicOk buf size start0
      specific req_cp).2.diacritics_character = 0 := by
  simp only [read_keyboard_file]
  split_ifs <;> try rfl
  all_goals simp [submap_loop_dc, reset]

/-- switch_keyboard_layout preserves the diacritics invariant on this
layout and establishes it on any layout it creates. -/
theorem switch_keyboard_layout_inv (s : KL) (hs : Inv s) (loadedCp : Nat)
    (startsUS langFound : Bool) (env : SwitchEnv) :
    Inv (switch_keyboard_layout s loadedCp startsUS langFound env).2.1 ∧
    ∀ t, (switch_keyboard_layout s loadedCp startsUS langFound env).2.2.2 = some t →
      Inv t := by
  unfold switch_keyboard_layout
  split_ifs
  all_goals try (refine ⟨?_, ?_⟩ <;> (first | exact Or.inl rfl | exact hs | simp) <;> done)
  all_goals cases hst : (read_codepage_file false true env.extractCp loadedCp env.cpEnv).status <;>
    simp [hst] <;> split_ifs <;>
    try (refine ⟨?_, ?_⟩ <;> (first | exact Or.inl rfl | exact hs | simp) <;> done)
  all_goals
    have hd := read_keyboard_file_dc (initState env.garbage) env.klNameIsNone env.klFound
      env.klMagicOk env.klBuf env.klSize env.klStart none env.extractCp
  all_goals
    first
      | exact ⟨hs, fun t ht => Or.inl (ht ▸ hd)⟩
      | exact ⟨hs, fun t ht => Or.inl ((Option.some.inj ht) ▸ hd)⟩

/-- C9: after every operation of the layout — construction,
read_keyboard_file, map_key, layout_key, switch_keyboard_layout (both
the switched layout and any layout the switch creates) —
diacritics_character is 0 or lies in the interval from 200 up to but
excluding diacritics_entries + 200, assuming it did before (the external
re-parse invoked by the submapping-switch commands is assumed to
preserve the invariant, as the real one does since it resets first). -/
theorem C9_diacritics_invariant
    (g : Nat → Nat) (rp : Nat → KL → KL) (hrp : ∀ n t, Inv t → Inv (rp n t))
    (s : KL) (hs : Inv s)
    (key lk : Nat) (ic ip : Bool) (f1 f2 f3 : Nat)
    (nameIsNone found magicOk : Bool) (buf : Nat → Nat) (size start0 : Nat)
    (specific : Option Nat) (reqCp : Nat)
    (loadedCp : Nat) (startsUS langFound : Bool) (env : SwitchEnv) :
    Inv (initState g) ∧
    Inv (read_keyboard_file s nameIsNone found magicOk buf size start0 specific reqCp).2 ∧
    Inv (map_key rp s key lk ic ip).2.2 ∧
    Inv (layout_key rp s key f1 f2 f3).2.2 ∧
    Inv (switch_keyboard_layout s loadedCp startsUS langFound env).2.1 ∧
    (∀ t, (switch_keyboard_layout s loadedCp startsUS langFound env).2.2.2 = some t → Inv t) :=
  ⟨Or.inl rfl,
    Or.inl (read_keyboard_file_dc s nameIsNone found magicOk buf size start0 specific reqCp),
    map_key_inv rp hrp s hs key lk ic ip,
    layout_key_inv rp hrp s hs key f1 f2 f3,
    (switch_keyboard_layout_inv s hs loadedCp startsUS langFound env).1,
    (switch_keyboard_layout_inv s hs loadedCp startsUS langFound env).2⟩

/-- Witness for C9 at concrete inputs. -/
theorem C9_witness :
    Inv (initState g0) ∧
    Inv (read_keyboard_file exS false true true (fun _ => 0) 100 5 none 437).2 ∧
    Inv (map_key rp0 exS 5 200 true false).2.2 ∧
    Inv (layout_key rp0 exS 5 0 0 0).2.2 ∧
    Inv (switch_keyboard_layout exS 437 false false switchEnvTriv).2.1 ∧
    (∀ t, (switch_keyboard_layout exS 437 false false switchEnvTriv).2.2.2 = some t → Inv t) :=
  C9_diacritics_invariant g0 rp0 (fun _ _ h => h) exS (Or.inl rfl) 5 200 true false 0 0 0
    false true true (fun _ => 0) 100 5 none 437 437 false false switchEnvTriv

end DosKbd
